import Mathlib

/-!
Shallow embedding of the Refresh frontend core.

Sources embedded:
* `src/src/Refresh.c` — the device-agnostic entry points: the command-buffer
  state machine, pass begin/end, validation macros, backend selection, the
  texel-block-size table and the depth-format substitution.
* `src/src/Refresh_driver.h` — `CommandBufferCommonHeader`, `IsDepthFormat`.
* `src/src/Refresh_Driver_Vulkan.c` — the cycling contract
  (`VULKAN_INTERNAL_PrepareBufferForWrite`,
  `VULKAN_INTERNAL_PrepareTextureSliceForWrite`,
  `VULKAN_INTERNAL_CycleActiveBuffer`, `VULKAN_INTERNAL_CycleActiveTexture`)
  and `VULKAN_CreateGpuBuffer`.

Modelling conventions: a C pointer argument is modelled by a `Bool` flag
stating whether it is NULL (the frontend never dereferences a pointer it has
not null-checked, except through the validated handles); the single command
buffer under scrutiny is the `CBHeader` state threaded through every call;
calls into the backend function table are recorded by name in a dispatch
list, and `SDL_LogError` / `SDL_InvalidParamError` messages in a log list.
-/

set_option linter.unusedVariables false

namespace Refresh

/-- The pass-relevant fields of `CommandBufferCommonHeader`
(`src/src/Refresh_driver.h`): the three per-pass `inProgress` flags, the two
pipeline-bound flags and the `submitted` flag.  The device back-pointer and
the pass back-pointers are omitted: with a single command buffer modelled,
every render/compute/copy pass handle refers to this very header, exactly as
`Refresh_BeginRenderPass` returns `&header->renderPass`. -/
structure CBHeader where
  renderInProgress : Bool
  computeInProgress : Bool
  copyInProgress : Bool
  graphicsPipelineBound : Bool
  computePipelineBound : Bool
  submitted : Bool
deriving Repr, DecidableEq

/-- Header state established by `Refresh_AcquireCommandBuffer`
(`src/src/Refresh.c`, lines 694-704): every flag cleared. -/
def acquiredHeader : CBHeader :=
  ⟨false, false, false, false, false, false⟩

/-- Outcome of one frontend call: the header afterwards, the C return value,
the backend vtable entries dispatched, and the error messages logged. -/
structure FR (α : Type) where
  st : CBHeader
  ret : α
  dispatched : List String
  logged : List String
deriving Repr

/-- Condition of the `CHECK_ANY_PASS_IN_PROGRESS` macro (`Refresh.c` 51-58). -/
def anyPassInProgress (st : CBHeader) : Bool :=
  st.renderInProgress || st.computeInProgress || st.copyInProgress

/-- `Refresh_InsertDebugLabel` (`Refresh.c` 526). -/
def Refresh_InsertDebugLabel (commandBufferNull textNull : Bool)
    (st : CBHeader) : FR Unit :=
  if commandBufferNull then ⟨st, (), [], ["SDL_InvalidParamError commandBuffer"]⟩
  else if textNull then ⟨st, (), [], ["SDL_InvalidParamError text"]⟩
  else if st.submitted then ⟨st, (), [], ["Command buffer already submitted!"]⟩
  else ⟨st, (), ["InsertDebugLabel"], []⟩

/-- `Refresh_PushDebugGroup` (`Refresh.c` 545). -/
def Refresh_PushDebugGroup (commandBufferNull nameNull : Bool)
    (st : CBHeader) : FR Unit :=
  if commandBufferNull then ⟨st, (), [], ["SDL_InvalidParamError commandBuffer"]⟩
  else if nameNull then ⟨st, (), [], ["SDL_InvalidParamError name"]⟩
  else if st.submitted then ⟨st, (), [], ["Command buffer already submitted!"]⟩
  else ⟨st, (), ["PushDebugGroup"], []⟩

/-- `Refresh_PopDebugGroup` (`Refresh.c` 564). -/
def Refresh_PopDebugGroup (commandBufferNull : Bool)
    (st : CBHeader) : FR Unit :=
  if commandBufferNull then ⟨st, (), [], ["SDL_InvalidParamError commandBuffer"]⟩
  else if st.submitted then ⟨st, (), [], ["Command buffer already submitted!"]⟩
  else ⟨st, (), ["PopDebugGroup"], []⟩

/-- `Refresh_PushVertexUniformData` (`Refresh.c` 711). -/
def Refresh_PushVertexUniformData (commandBufferNull : Bool)
    (slotIndex : Nat) (dataNull : Bool) (dataLengthInBytes : Nat)
    (st : CBHeader) : FR Unit :=
  if commandBufferNull then ⟨st, (), [], ["SDL_InvalidParamError commandBuffer"]⟩
  else if dataNull then ⟨st, (), [], ["SDL_InvalidParamError data"]⟩
  else if st.submitted then ⟨st, (), [], ["Command buffer already submitted!"]⟩
  else ⟨st, (), ["PushVertexUniformData"], []⟩

/-- `Refresh_PushFragmentUniformData` (`Refresh.c` 734). -/
def Refresh_PushFragmentUniformData (commandBufferNull : Bool)
    (slotIndex : Nat) (dataNull : Bool) (dataLengthInBytes : Nat)
    (st : CBHeader) : FR Unit :=
  if commandBufferNull then ⟨st, (), [], ["SDL_InvalidParamError commandBuffer"]⟩
  else if dataNull then ⟨st, (), [], ["SDL_InvalidParamError data"]⟩
  else if st.submitted then ⟨st, (), [], ["Command buffer already submitted!"]⟩
  else ⟨st, (), ["PushFragmentUniformData"], []⟩

/-- `Refresh_PushComputeUniformData` (`Refresh.c` 757). -/
def Refresh_PushComputeUniformData (commandBufferNull : Bool)
    (slotIndex : Nat) (dataNull : Bool) (dataLengthInBytes : Nat)
    (st : CBHeader) : FR Unit :=
  if commandBufferNull then ⟨st, (), [], ["SDL_InvalidParamError commandBuffer"]⟩
  else if dataNull then ⟨st, (), [], ["SDL_InvalidParamError data"]⟩
  else if st.submitted then ⟨st, (), [], ["Command buffer already submitted!"]⟩
  else ⟨st, (), ["PushComputeUniformData"], []⟩

/-- `Refresh_BeginRenderPass` (`Refresh.c` 782-811): null checks, then
`CHECK_COMMAND_BUFFER_RETURN_NULL`, then `CHECK_ANY_PASS_IN_PROGRESS`, then
dispatch and set `renderPass.inProgress`.  The returned pass handle is
modelled as `some ()` since it always points at this header. -/
def Refresh_BeginRenderPass (commandBufferNull colorAttachmentInfosNull : Bool)
    (colorAttachmentCount : Nat) (depthStencilAttachmentInfoNull : Bool)
    (st : CBHeader) : FR (Option Unit) :=
  if commandBufferNull then ⟨st, none, [], ["SDL_InvalidParamError commandBuffer"]⟩
  else if colorAttachmentInfosNull && colorAttachmentCount > 0 then
    ⟨st, none, [], ["SDL_InvalidParamError colorAttachmentInfos"]⟩
  else if st.submitted then ⟨st, none, [], ["Command buffer already submitted!"]⟩
  else if anyPassInProgress st then ⟨st, none, [], ["Pass already in progress!"]⟩
  else ⟨{ st with renderInProgress := true }, some (), ["BeginRenderPass"], []⟩

/-- `Refresh_BindGraphicsPipeline` (`Refresh.c` 813-834).  Faithful to the
source: after the two null checks it dispatches and sets
`graphicsPipelineBound` with NO `CHECK_RENDERPASS` and NO
`CHECK_COMMAND_BUFFER`. -/
def Refresh_BindGraphicsPipeline (renderPassNull graphicsPipelineNull : Bool)
    (st : CBHeader) : FR Unit :=
  if renderPassNull then ⟨st, (), [], ["SDL_InvalidParamError renderPass"]⟩
  else if graphicsPipelineNull then ⟨st, (), [], ["SDL_InvalidParamError graphicsPipeline"]⟩
  else ⟨{ st with graphicsPipelineBound := true }, (), ["BindGraphicsPipeline"], []⟩

/-- `Refresh_SetViewport` (`Refresh.c` 836). -/
def Refresh_SetViewport (renderPassNull viewportNull : Bool)
    (st : CBHeader) : FR Unit :=
  if renderPassNull then ⟨st, (), [], ["SDL_InvalidParamError renderPass"]⟩
  else if viewportNull then ⟨st, (), [], ["SDL_InvalidParamError viewport"]⟩
  else if !st.renderInProgress then ⟨st, (), [], ["Render pass not in progress!"]⟩
  else ⟨st, (), ["SetViewport"], []⟩

/-- `Refresh_SetScissor` (`Refresh.c` 855). -/
def Refresh_SetScissor (renderPassNull scissorNull : Bool)
    (st : CBHeader) : FR Unit :=
  if renderPassNull then ⟨st, (), [], ["SDL_InvalidParamError renderPass"]⟩
  else if scissorNull then ⟨st, (), [], ["SDL_InvalidParamError scissor"]⟩
  else if !st.renderInProgress then ⟨st, (), [], ["Render pass not in progress!"]⟩
  else ⟨st, (), ["SetScissor"], []⟩

/-- `Refresh_BindVertexBuffers` (`Refresh.c` 874). -/
def Refresh_BindVertexBuffers (renderPassNull : Bool) (firstBinding : Nat)
    (pBindingsNull : Bool) (bindingCount : Nat) (st : CBHeader) : FR Unit :=
  if renderPassNull then ⟨st, (), [], ["SDL_InvalidParamError renderPass"]⟩
  else if pBindingsNull && bindingCount > 0 then
    ⟨st, (), [], ["SDL_InvalidParamError pBindings"]⟩
  else if !st.renderInProgress then ⟨st, (), [], ["Render pass not in progress!"]⟩
  else if !st.graphicsPipelineBound then ⟨st, (), [], ["Graphics pipeline not bound!"]⟩
  else ⟨st, (), ["BindVertexBuffers"], []⟩

/-- `Refresh_BindIndexBuffer` (`Refresh.c` 898). -/
def Refresh_BindIndexBuffer (renderPassNull pBindingNull : Bool)
    (indexElementSize : Nat) (st : CBHeader) : FR Unit :=
  if renderPassNull then ⟨st, (), [], ["SDL_InvalidParamError renderPass"]⟩
  else if pBindingNull then ⟨st, (), [], ["SDL_InvalidParamError pBinding"]⟩
  else if !st.renderInProgress then ⟨st, (), [], ["Render pass not in progress!"]⟩
  else if !st.graphicsPipelineBound then ⟨st, (), [], ["Graphics pipeline not bound!"]⟩
  else ⟨st, (), ["BindIndexBuffer"], []⟩

/-- `Refresh_BindVertexSamplers` (`Refresh.c` 920). -/
def Refresh_BindVertexSamplers (renderPassNull : Bool) (firstSlot : Nat)
    (bindingsNull : Bool) (bindingCount : Nat) (st : CBHeader) : FR Unit :=
  if renderPassNull then ⟨st, (), [], ["SDL_InvalidParamError renderPass"]⟩
  else if bindingsNull && bindingCount > 0 then
    ⟨st, (), [], ["SDL_InvalidParamError textureSamplerBindings"]⟩
  else if !st.renderInProgress then ⟨st, (), [], ["Render pass not in progress!"]⟩
  else if !st.graphicsPipelineBound then ⟨st, (), [], ["Graphics pipeline not bound!"]⟩
  else ⟨st, (), ["BindVertexSamplers"], []⟩

/-- `Refresh_BindVertexStorageTextures` (`Refresh.c` 944). -/
def Refresh_BindVertexStorageTextures (renderPassNull : Bool) (firstSlot : Nat)
    (slicesNull : Bool) (bindingCount : Nat) (st : CBHeader) : FR Unit :=
  if renderPassNull then ⟨st, (), [], ["SDL_InvalidParamError renderPass"]⟩
  else if slicesNull && bindingCount > 0 then
    ⟨st, (), [], ["SDL_InvalidParamError storageTextureSlices"]⟩
  else if !st.renderInProgress then ⟨st, (), [], ["Render pass not in progress!"]⟩
  else if !st.graphicsPipelineBound then ⟨st, (), [], ["Graphics pipeline not bound!"]⟩
  else ⟨st, (), ["BindVertexStorageTextures"], []⟩

/-- `Refresh_BindVertexStorageBuffers` (`Refresh.c` 968). -/
def Refresh_BindVertexStorageBuffers (renderPassNull : Bool) (firstSlot : Nat)
    (buffersNull : Bool) (bindingCount : Nat) (st : CBHeader) : FR Unit :=
  if renderPassNull then ⟨st, (), [], ["SDL_InvalidParamError renderPass"]⟩
  else if buffersNull && bindingCount > 0 then
    ⟨st, (), [], ["SDL_InvalidParamError storageBuffers"]⟩
  else if !st.renderInProgress then ⟨st, (), [], ["Render pass not in progress!"]⟩
  else if !st.graphicsPipelineBound then ⟨st, (), [], ["Graphics pipeline not bound!"]⟩
  else ⟨st, (), ["BindVertexStorageBuffers"], []⟩

/-- `Refresh_BindFragmentSamplers` (`Refresh.c` 992). -/
def Refresh_BindFragmentSamplers (renderPassNull : Bool) (firstSlot : Nat)
    (bindingsNull : Bool) (bindingCount : Nat) (st : CBHeader) : FR Unit :=
  if renderPassNull then ⟨st, (), [], ["SDL_InvalidParamError renderPass"]⟩
  else if bindingsNull && bindingCount > 0 then
    ⟨st, (), [], ["SDL_InvalidParamError textureSamplerBindings"]⟩
  else if !st.renderInProgress then ⟨st, (), [], ["Render pass not in progress!"]⟩
  else if !st.graphicsPipelineBound then ⟨st, (), [], ["Graphics pipeline not bound!"]⟩
  else ⟨st, (), ["BindFragmentSamplers"], []⟩

/-- `Refresh_BindFragmentStorageTextures` (`Refresh.c` 1016). -/
def Refresh_BindFragmentStorageTextures (renderPassNull : Bool) (firstSlot : Nat)
    (slicesNull : Bool) (bindingCount : Nat) (st : CBHeader) : FR Unit :=
  if renderPassNull then ⟨st, (), [], ["SDL_InvalidParamError renderPass"]⟩
  else if slicesNull && bindingCount > 0 then
    ⟨st, (), [], ["SDL_InvalidParamError storageTextureSlices"]⟩
  else if !st.renderInProgress then ⟨st, (), [], ["Render pass not in progress!"]⟩
  else if !st.graphicsPipelineBound then ⟨st, (), [], ["Graphics pipeline not bound!"]⟩
  else ⟨st, (), ["BindFragmentStorageTextures"], []⟩

/-- `Refresh_BindFragmentStorageBuffers` (`Refresh.c` 1040). -/
def Refresh_BindFragmentStorageBuffers (renderPassNull : Bool) (firstSlot : Nat)
    (buffersNull : Bool) (bindingCount : Nat) (st : CBHeader) : FR Unit :=
  if renderPassNull then ⟨st, (), [], ["SDL_InvalidParamError renderPass"]⟩
  else if buffersNull && bindingCount > 0 then
    ⟨st, (), [], ["SDL_InvalidParamError storageBuffers"]⟩
  else if !st.renderInProgress then ⟨st, (), [], ["Render pass not in progress!"]⟩
  else if !st.graphicsPipelineBound then ⟨st, (), [], ["Graphics pipeline not bound!"]⟩
  else ⟨st, (), ["BindFragmentStorageBuffers"], []⟩

/-- `Refresh_DrawIndexedPrimitives` (`Refresh.c` 1064). -/
def Refresh_DrawIndexedPrimitives (renderPassNull : Bool)
    (baseVertex startIndex primitiveCount instanceCount : Nat)
    (st : CBHeader) : FR Unit :=
  if renderPassNull then ⟨st, (), [], ["SDL_InvalidParamError renderPass"]⟩
  else if !st.renderInProgress then ⟨st, (), [], ["Render pass not in progress!"]⟩
  else if !st.graphicsPipelineBound then ⟨st, (), [], ["Graphics pipeline not bound!"]⟩
  else ⟨st, (), ["DrawIndexedPrimitives"], []⟩

/-- `Refresh_DrawPrimitives` (`Refresh.c` 1086-1102). -/
def Refresh_DrawPrimitives (renderPassNull : Bool)
    (vertexStart primitiveCount : Nat) (st : CBHeader) : FR Unit :=
  if renderPassNull then ⟨st, (), [], ["SDL_InvalidParamError renderPass"]⟩
  else if !st.renderInProgress then ⟨st, (), [], ["Render pass not in progress!"]⟩
  else if !st.graphicsPipelineBound then ⟨st, (), [], ["Graphics pipeline not bound!"]⟩
  else ⟨st, (), ["DrawPrimitives"], []⟩

/-- `Refresh_DrawPrimitivesIndirect` (`Refresh.c` 1104). -/
def Refresh_DrawPrimitivesIndirect (renderPassNull bufferNull : Bool)
    (offsetInBytes drawCount stride : Nat) (st : CBHeader) : FR Unit :=
  if renderPassNull then ⟨st, (), [], ["SDL_InvalidParamError renderPass"]⟩
  else if bufferNull then ⟨st, (), [], ["SDL_InvalidParamError buffer"]⟩
  else if !st.renderInProgress then ⟨st, (), [], ["Render pass not in progress!"]⟩
  else if !st.graphicsPipelineBound then ⟨st, (), [], ["Graphics pipeline not bound!"]⟩
  else ⟨st, (), ["DrawPrimitivesIndirect"], []⟩

/-- `Refresh_DrawIndexedPrimitivesIndirect` (`Refresh.c` 1130). -/
def Refresh_DrawIndexedPrimitivesIndirect (renderPassNull bufferNull : Bool)
    (offsetInBytes drawCount stride : Nat) (st : CBHeader) : FR Unit :=
  if renderPassNull then ⟨st, (), [], ["SDL_InvalidParamError renderPass"]⟩
  else if bufferNull then ⟨st, (), [], ["SDL_InvalidParamError buffer"]⟩
  else if !st.renderInProgress then ⟨st, (), [], ["Render pass not in progress!"]⟩
  else if !st.graphicsPipelineBound then ⟨st, (), [], ["Graphics pipeline not bound!"]⟩
  else ⟨st, (), ["DrawIndexedPrimitivesIndirect"], []⟩

/-- `Refresh_EndRenderPass` (`Refresh.c` 1156-1173): `CHECK_RENDERPASS`, then
dispatch, then clear `renderPass.inProgress` and `graphicsPipelineBound`. -/
def Refresh_EndRenderPass (renderPassNull : Bool) (st : CBHeader) : FR Unit :=
  if renderPassNull then ⟨st, (), [], ["SDL_InvalidParamError renderPass"]⟩
  else if !st.renderInProgress then ⟨st, (), [], ["Render pass not in progress!"]⟩
  else ⟨{ st with renderInProgress := false, graphicsPipelineBound := false },
        (), ["EndRenderPass"], []⟩

/-- `Refresh_BeginComputePass` (`Refresh.c` 1177-1211). -/
def Refresh_BeginComputePass (commandBufferNull : Bool)
    (storageTextureBindingsNull : Bool) (storageTextureBindingCount : Nat)
    (storageBufferBindingsNull : Bool) (storageBufferBindingCount : Nat)
    (st : CBHeader) : FR (Option Unit) :=
  if commandBufferNull then ⟨st, none, [], ["SDL_InvalidParamError commandBuffer"]⟩
  else if storageTextureBindingsNull && storageTextureBindingCount > 0 then
    ⟨st, none, [], ["SDL_InvalidParamError storageTextureBindings"]⟩
  else if storageBufferBindingsNull && storageBufferBindingCount > 0 then
    ⟨st, none, [], ["SDL_InvalidParamError storageBufferBindings"]⟩
  else if st.submitted then ⟨st, none, [], ["Command buffer already submitted!"]⟩
  else if anyPassInProgress st then ⟨st, none, [], ["Pass already in progress!"]⟩
  else ⟨{ st with computeInProgress := true }, some (), ["BeginComputePass"], []⟩

/-- `Refresh_BindComputePipeline` (`Refresh.c` 1213-1235): null checks, then
`CHECK_COMPUTEPASS`, then dispatch and set `computePipelineBound`. -/
def Refresh_BindComputePipeline (computePassNull computePipelineNull : Bool)
    (st : CBHeader) : FR Unit :=
  if computePassNull then ⟨st, (), [], ["SDL_InvalidParamError computePass"]⟩
  else if computePipelineNull then ⟨st, (), [], ["SDL_InvalidParamError computePipeline"]⟩
  else if !st.computeInProgress then ⟨st, (), [], ["Compute pass not in progress!"]⟩
  else ⟨{ st with computePipelineBound := true }, (), ["BindComputePipeline"], []⟩

/-- `Refresh_BindComputeStorageTextures` (`Refresh.c` 1237). -/
def Refresh_BindComputeStorageTextures (computePassNull : Bool) (firstSlot : Nat)
    (slicesNull : Bool) (bindingCount : Nat) (st : CBHeader) : FR Unit :=
  if computePassNull then ⟨st, (), [], ["SDL_InvalidParamError computePass"]⟩
  else if slicesNull && bindingCount > 0 then
    ⟨st, (), [], ["SDL_InvalidParamError storageTextureSlices"]⟩
  else if !st.computeInProgress then ⟨st, (), [], ["Compute pass not in progress!"]⟩
  else if !st.computePipelineBound then ⟨st, (), [], ["Compute pipeline not bound!"]⟩
  else ⟨st, (), ["BindComputeStorageTextures"], []⟩

/-- `Refresh_BindComputeStorageBuffers` (`Refresh.c` 1261). -/
def Refresh_BindComputeStorageBuffers (computePassNull : Bool) (firstSlot : Nat)
    (buffersNull : Bool) (bindingCount : Nat) (st : CBHeader) : FR Unit :=
  if computePassNull then ⟨st, (), [], ["SDL_InvalidParamError computePass"]⟩
  else if buffersNull && bindingCount > 0 then
    ⟨st, (), [], ["SDL_InvalidParamError storageBuffers"]⟩
  else if !st.computeInProgress then ⟨st, (), [], ["Compute pass not in progress!"]⟩
  else if !st.computePipelineBound then ⟨st, (), [], ["Compute pipeline not bound!"]⟩
  else ⟨st, (), ["BindComputeStorageBuffers"], []⟩

/-- `Refresh_DispatchCompute` (`Refresh.c` 1285). -/
def Refresh_DispatchCompute (computePassNull : Bool)
    (groupCountX groupCountY groupCountZ : Nat) (st : CBHeader) : FR Unit :=
  if computePassNull then ⟨st, (), [], ["SDL_InvalidParamError computePass"]⟩
  else if !st.computeInProgress then ⟨st, (), [], ["Compute pass not in progress!"]⟩
  else if !st.computePipelineBound then ⟨st, (), [], ["Compute pipeline not bound!"]⟩
  else ⟨st, (), ["DispatchCompute"], []⟩

/-- `Refresh_EndComputePass` (`Refresh.c` 1305-1322): `CHECK_COMPUTEPASS`, then
dispatch, then clear `computePass.inProgress` and `computePipelineBound`. -/
def Refresh_EndComputePass (computePassNull : Bool) (st : CBHeader) : FR Unit :=
  if computePassNull then ⟨st, (), [], ["SDL_InvalidParamError computePass"]⟩
  else if !st.computeInProgress then ⟨st, (), [], ["Compute pass not in progress!"]⟩
  else ⟨{ st with computeInProgress := false, computePipelineBound := false },
        (), ["EndComputePass"], []⟩

/-- `Refresh_BeginCopyPass` (`Refresh.c` 1410-1428). -/
def Refresh_BeginCopyPass (commandBufferNull : Bool)
    (st : CBHeader) : FR (Option Unit) :=
  if commandBufferNull then ⟨st, none, [], ["SDL_InvalidParamError commandBuffer"]⟩
  else if st.submitted then ⟨st, none, [], ["Command buffer already submitted!"]⟩
  else if anyPassInProgress st then ⟨st, none, [], ["Pass already in progress!"]⟩
  else ⟨{ st with copyInProgress := true }, some (), ["BeginCopyPass"], []⟩

/-- `Refresh_UploadToTexture` (`Refresh.c` 1430-1455): this one DOES run
`CHECK_COPYPASS` before dispatching. -/
def Refresh_UploadToTexture (copyPassNull sourceNull destinationNull : Bool)
    (cycle : Bool) (st : CBHeader) : FR Unit :=
  if copyPassNull then ⟨st, (), [], ["SDL_InvalidParamError copyPass"]⟩
  else if sourceNull then ⟨st, (), [], ["SDL_InvalidParamError source"]⟩
  else if destinationNull then ⟨st, (), [], ["SDL_InvalidParamError destination"]⟩
  else if !st.copyInProgress then ⟨st, (), [], ["Copy pass not in progress!"]⟩
  else ⟨st, (), ["UploadToTexture"], []⟩

/-- `Refresh_UploadToBuffer` (`Refresh.c` 1457-1481).  Faithful to the source:
after the null checks it dispatches straight to the backend — there is NO
`CHECK_COPYPASS` in this function. -/
def Refresh_UploadToBuffer (copyPassNull sourceNull destinationNull : Bool)
    (cycle : Bool) (st : CBHeader) : FR Unit :=
  if copyPassNull then ⟨st, (), [], ["SDL_InvalidParamError copyPass"]⟩
  else if sourceNull then ⟨st, (), [], ["SDL_InvalidParamError source"]⟩
  else if destinationNull then ⟨st, (), [], ["SDL_InvalidParamError destination"]⟩
  else ⟨st, (), ["UploadToBuffer"], []⟩

/-- `Refresh_CopyTextureToTexture` (`Refresh.c` 1483-1513).  No
`CHECK_COPYPASS` in the source. -/
def Refresh_CopyTextureToTexture (copyPassNull sourceNull destinationNull : Bool)
    (w h d : Nat) (cycle : Bool) (st : CBHeader) : FR Unit :=
  if copyPassNull then ⟨st, (), [], ["SDL_InvalidParamError copyPass"]⟩
  else if sourceNull then ⟨st, (), [], ["SDL_InvalidParamError source"]⟩
  else if destinationNull then ⟨st, (), [], ["SDL_InvalidParamError destination"]⟩
  else ⟨st, (), ["CopyTextureToTexture"], []⟩

/-- `Refresh_CopyBufferToBuffer` (`Refresh.c` 1515-1541).  No
`CHECK_COPYPASS` in the source. -/
def Refresh_CopyBufferToBuffer (copyPassNull sourceNull destinationNull : Bool)
    (size : Nat) (cycle : Bool) (st : CBHeader) : FR Unit :=
  if copyPassNull then ⟨st, (), [], ["SDL_InvalidParamError copyPass"]⟩
  else if sourceNull then ⟨st, (), [], ["SDL_InvalidParamError source"]⟩
  else if destinationNull then ⟨st, (), [], ["SDL_InvalidParamError destination"]⟩
  else ⟨st, (), ["CopyBufferToBuffer"], []⟩

/-- `Refresh_GenerateMipmaps` (`Refresh.c` 1543-1559).  No `CHECK_COPYPASS`
in the source. -/
def Refresh_GenerateMipmaps (copyPassNull textureNull : Bool)
    (st : CBHeader) : FR Unit :=
  if copyPassNull then ⟨st, (), [], ["SDL_InvalidParamError copyPass"]⟩
  else if textureNull then ⟨st, (), [], ["SDL_InvalidParamError texture"]⟩
  else ⟨st, (), ["GenerateMipmaps"], []⟩

/-- `Refresh_DownloadFromTexture` (`Refresh.c` 1561-1583).  No
`CHECK_COPYPASS` in the source. -/
def Refresh_DownloadFromTexture (copyPassNull sourceNull destinationNull : Bool)
    (st : CBHeader) : FR Unit :=
  if copyPassNull then ⟨st, (), [], ["SDL_InvalidParamError copyPass"]⟩
  else if sourceNull then ⟨st, (), [], ["SDL_InvalidParamError source"]⟩
  else if destinationNull then ⟨st, (), [], ["SDL_InvalidParamError destination"]⟩
  else ⟨st, (), ["DownloadFromTexture"], []⟩

/-- `Refresh_DownloadFromBuffer` (`Refresh.c` 1585-1607).  No
`CHECK_COPYPASS` in the source. -/
def Refresh_DownloadFromBuffer (copyPassNull sourceNull destinationNull : Bool)
    (st : CBHeader) : FR Unit :=
  if copyPassNull then ⟨st, (), [], ["SDL_InvalidParamError copyPass"]⟩
  else if sourceNull then ⟨st, (), [], ["SDL_InvalidParamError source"]⟩
  else if destinationNull then ⟨st, (), [], ["SDL_InvalidParamError destination"]⟩
  else ⟨st, (), ["DownloadFromBuffer"], []⟩

/-- `Refresh_EndCopyPass` (`Refresh.c` 1609-1622): `CHECK_COPYPASS`, then
dispatch, then clear `copyPass.inProgress` (only that flag). -/
def Refresh_EndCopyPass (copyPassNull : Bool) (st : CBHeader) : FR Unit :=
  if copyPassNull then ⟨st, (), [], ["SDL_InvalidParamError copyPass"]⟩
  else if !st.copyInProgress then ⟨st, (), [], ["Copy pass not in progress!"]⟩
  else ⟨{ st with copyInProgress := false }, (), ["EndCopyPass"], []⟩

/-- `Refresh_Blit` (`Refresh.c` 1624-1651): null checks, then
`CHECK_COMMAND_BUFFER`, then dispatch. -/
def Refresh_Blit (commandBufferNull sourceNull destinationNull : Bool)
    (filterMode : Nat) (cycle : Bool) (st : CBHeader) : FR Unit :=
  if commandBufferNull then ⟨st, (), [], ["SDL_InvalidParamError commandBuffer"]⟩
  else if sourceNull then ⟨st, (), [], ["SDL_InvalidParamError source"]⟩
  else if destinationNull then ⟨st, (), [], ["SDL_InvalidParamError destination"]⟩
  else if st.submitted then ⟨st, (), [], ["Command buffer already submitted!"]⟩
  else ⟨st, (), ["Blit"], []⟩

/-- `Refresh_AcquireSwapchainTexture` (`Refresh.c` 1757-1778).  The value the
backend returns (possibly null on transient swapchain loss) is abstracted as
the `backendRet` argument. -/
def Refresh_AcquireSwapchainTexture (commandBufferNull windowNull : Bool)
    (backendRet : Option Unit) (st : CBHeader) : FR (Option Unit) :=
  if commandBufferNull then ⟨st, none, [], ["SDL_InvalidParamError commandBuffer"]⟩
  else if windowNull then ⟨st, none, [], ["SDL_InvalidParamError window"]⟩
  else if st.submitted then ⟨st, none, [], ["Command buffer already submitted!"]⟩
  else ⟨st, backendRet, ["AcquireSwapchainTexture"], []⟩

/-- `Refresh_Submit` (`Refresh.c` 1780-1804): null check, `CHECK_COMMAND_BUFFER`,
refuse while any pass is in progress, then set `submitted` and dispatch. -/
def Refresh_Submit (commandBufferNull : Bool) (st : CBHeader) : FR Unit :=
  if commandBufferNull then ⟨st, (), [], ["SDL_InvalidParamError commandBuffer"]⟩
  else if st.submitted then ⟨st, (), [], ["Command buffer already submitted!"]⟩
  else if st.renderInProgress || st.computeInProgress || st.copyInProgress then
    ⟨st, (), [], ["Cannot submit command buffer while a pass is in progress!"]⟩
  else ⟨{ st with submitted := true }, (), ["Submit"], []⟩

/-- `Refresh_SubmitAndAcquireFence` (`Refresh.c` 1806-1830).  The fence the
backend returns is abstracted as the `backendRet` argument. -/
def Refresh_SubmitAndAcquireFence (commandBufferNull : Bool)
    (backendRet : Option Unit) (st : CBHeader) : FR (Option Unit) :=
  if commandBufferNull then ⟨st, none, [], ["SDL_InvalidParamError commandBuffer"]⟩
  else if st.submitted then ⟨st, none, [], ["Command buffer already submitted!"]⟩
  else if st.renderInProgress || st.computeInProgress || st.copyInProgress then
    ⟨st, none, [], ["Cannot submit command buffer while a pass is in progress!"]⟩
  else ⟨{ st with submitted := true }, backendRet, ["SubmitAndAcquireFence"], []⟩

/-- One public frontend call on the modelled command buffer (or on one of its
pass handles), with the argument data each call inspects.  Covers every
entry point of `src/src/Refresh.c` that takes a command-buffer, render-pass,
compute-pass or copy-pass handle. -/
inductive FrontendOp where
  | insertDebugLabel (commandBufferNull textNull : Bool)
  | pushDebugGroup (commandBufferNull nameNull : Bool)
  | popDebugGroup (commandBufferNull : Bool)
  | pushVertexUniformData (commandBufferNull : Bool) (slotIndex : Nat)
      (dataNull : Bool) (dataLengthInBytes : Nat)
  | pushFragmentUniformData (commandBufferNull : Bool) (slotIndex : Nat)
      (dataNull : Bool) (dataLengthInBytes : Nat)
  | pushComputeUniformData (commandBufferNull : Bool) (slotIndex : Nat)
      (dataNull : Bool) (dataLengthInBytes : Nat)
  | beginRenderPass (commandBufferNull colorAttachmentInfosNull : Bool)
      (colorAttachmentCount : Nat) (depthStencilAttachmentInfoNull : Bool)
  | bindGraphicsPipeline (renderPassNull graphicsPipelineNull : Bool)
  | setViewport (renderPassNull viewportNull : Bool)
  | setScissor (renderPassNull scissorNull : Bool)
  | bindVertexBuffers (renderPassNull : Bool) (firstBinding : Nat)
      (pBindingsNull : Bool) (bindingCount : Nat)
  | bindIndexBuffer (renderPassNull pBindingNull : Bool) (indexElementSize : Nat)
  | bindVertexSamplers (renderPassNull : Bool) (firstSlot : Nat)
      (bindingsNull : Bool) (bindingCount : Nat)
  | bindVertexStorageTextures (renderPassNull : Bool) (firstSlot : Nat)
      (slicesNull : Bool) (bindingCount : Nat)
  | bindVertexStorageBuffers (renderPassNull : Bool) (firstSlot : Nat)
      (buffersNull : Bool) (bindingCount : Nat)
  | bindFragmentSamplers (renderPassNull : Bool) (firstSlot : Nat)
      (bindingsNull : Bool) (bindingCount : Nat)
  | bindFragmentStorageTextures (renderPassNull : Bool) (firstSlot : Nat)
      (slicesNull : Bool) (bindingCount : Nat)
  | bindFragmentStorageBuffers (renderPassNull : Bool) (firstSlot : Nat)
      (buffersNull : Bool) (bindingCount : Nat)
  | drawIndexedPrimitives (renderPassNull : Bool)
      (baseVertex startIndex primitiveCount instanceCount : Nat)
  | drawPrimitives (renderPassNull : Bool) (vertexStart primitiveCount : Nat)
  | drawPrimitivesIndirect (renderPassNull bufferNull : Bool)
      (offsetInBytes drawCount stride : Nat)
  | drawIndexedPrimitivesIndirect (renderPassNull bufferNull : Bool)
      (offsetInBytes drawCount stride : Nat)
  | endRenderPass (renderPassNull : Bool)
  | beginComputePass (commandBufferNull : Bool)
      (storageTextureBindingsNull : Bool) (storageTextureBindingCount : Nat)
      (storageBufferBindingsNull : Bool) (storageBufferBindingCount : Nat)
  | bindComputePipeline (computePassNull computePipelineNull : Bool)
  | bindComputeStorageTextures (computePassNull : Bool) (firstSlot : Nat)
      (slicesNull : Bool) (bindingCount : Nat)
  | bindComputeStorageBuffers (computePassNull : Bool) (firstSlot : Nat)
      (buffersNull : Bool) (bindingCount : Nat)
  | dispatchCompute (computePassNull : Bool) (groupCountX groupCountY groupCountZ : Nat)
  | endComputePass (computePassNull : Bool)
  | beginCopyPass (commandBufferNull : Bool)
  | uploadToTexture (copyPassNull sourceNull destinationNull : Bool) (cycle : Bool)
  | uploadToBuffer (copyPassNull sourceNull destinationNull : Bool) (cycle : Bool)
  | copyTextureToTexture (copyPassNull sourceNull destinationNull : Bool)
      (w h d : Nat) (cycle : Bool)
  | copyBufferToBuffer (copyPassNull sourceNull destinationNull : Bool)
      (size : Nat) (cycle : Bool)
  | generateMipmaps (copyPassNull textureNull : Bool)
  | downloadFromTexture (copyPassNull sourceNull destinationNull : Bool)
  | downloadFromBuffer (copyPassNull sourceNull destinationNull : Bool)
  | endCopyPass (copyPassNull : Bool)
  | blit (commandBufferNull sourceNull destinationNull : Bool)
      (filterMode : Nat) (cycle : Bool)
  | acquireSwapchainTexture (commandBufferNull windowNull : Bool)
      (backendRet : Option Unit)
  | submit (commandBufferNull : Bool)
  | submitAndAcquireFence (commandBufferNull : Bool) (backendRet : Option Unit)
deriving Repr, DecidableEq

/-- Interpret one frontend call, keeping the header state, the dispatch list
and the log list (the return value is dropped; the individual functions keep
it). -/
def runOp (op : FrontendOp) (st : CBHeader) : CBHeader × List String × List String :=
  match op with
  | .insertDebugLabel a b =>
      let r := Refresh_InsertDebugLabel a b st; (r.st, r.dispatched, r.logged)
  | .pushDebugGroup a b =>
      let r := Refresh_PushDebugGroup a b st; (r.st, r.dispatched, r.logged)
  | .popDebugGroup a =>
      let r := Refresh_PopDebugGroup a st; (r.st, r.dispatched, r.logged)
  | .pushVertexUniformData a s b n =>
      let r := Refresh_PushVertexUniformData a s b n st; (r.st, r.dispatched, r.logged)
  | .pushFragmentUniformData a s b n =>
      let r := Refresh_PushFragmentUniformData a s b n st; (r.st, r.dispatched, r.logged)
  | .pushComputeUniformData a s b n =>
      let r := Refresh_PushComputeUniformData a s b n st; (r.st, r.dispatched, r.logged)
  | .beginRenderPass a b n c =>
      let r := Refresh_BeginRenderPass a b n c st; (r.st, r.dispatched, r.logged)
  | .bindGraphicsPipeline a b =>
      let r := Refresh_BindGraphicsPipeline a b st; (r.st, r.dispatched, r.logged)
  | .setViewport a b =>
      let r := Refresh_SetViewport a b st; (r.st, r.dispatched, r.logged)
  | .setScissor a b =>
      let r := Refresh_SetScissor a b st; (r.st, r.dispatched, r.logged)
  | .bindVertexBuffers a f b n =>
      let r := Refresh_BindVertexBuffers a f b n st; (r.st, r.dispatched, r.logged)
  | .bindIndexBuffer a b e =>
      let r := Refresh_BindIndexBuffer a b e st; (r.st, r.dispatched, r.logged)
  | .bindVertexSamplers a f b n =>
      let r := Refresh_BindVertexSamplers a f b n st; (r.st, r.dispatched, r.logged)
  | .bindVertexStorageTextures a f b n =>
      let r := Refresh_BindVertexStorageTextures a f b n st; (r.st, r.dispatched, r.logged)
  | .bindVertexStorageBuffers a f b n =>
      let r := Refresh_BindVertexStorageBuffers a f b n st; (r.st, r.dispatched, r.logged)
  | .bindFragmentSamplers a f b n =>
      let r := Refresh_BindFragmentSamplers a f b n st; (r.st, r.dispatched, r.logged)
  | .bindFragmentStorageTextures a f b n =>
      let r := Refresh_BindFragmentStorageTextures a f b n st; (r.st, r.dispatched, r.logged)
  | .bindFragmentStorageBuffers a f b n =>
      let r := Refresh_BindFragmentStorageBuffers a f b n st; (r.st, r.dispatched, r.logged)
  | .drawIndexedPrimitives a v i p c =>
      let r := Refresh_DrawIndexedPrimitives a v i p c st; (r.st, r.dispatched, r.logged)
  | .drawPrimitives a v p =>
      let r := Refresh_DrawPrimitives a v p st; (r.st, r.dispatched, r.logged)
  | .drawPrimitivesIndirect a b o d s =>
      let r := Refresh_DrawPrimitivesIndirect a b o d s st; (r.st, r.dispatched, r.logged)
  | .drawIndexedPrimitivesIndirect a b o d s =>
      let r := Refresh_DrawIndexedPrimitivesIndirect a b o d s st; (r.st, r.dispatched, r.logged)
  | .endRenderPass a =>
      let r := Refresh_EndRenderPass a st; (r.st, r.dispatched, r.logged)
  | .beginComputePass a b n c m =>
      let r := Refresh_BeginComputePass a b n c m st; (r.st, r.dispatched, r.logged)
  | .bindComputePipeline a b =>
      let r := Refresh_BindComputePipeline a b st; (r.st, r.dispatched, r.logged)
  | .bindComputeStorageTextures a f b n =>
      let r := Refresh_BindComputeStorageTextures a f b n st; (r.st, r.dispatched, r.logged)
  | .bindComputeStorageBuffers a f b n =>
      let r := Refresh_BindComputeStorageBuffers a f b n st; (r.st, r.dispatched, r.logged)
  | .dispatchCompute a x y z =>
      let r := Refresh_DispatchCompute a x y z st; (r.st, r.dispatched, r.logged)
  | .endComputePass a =>
      let r := Refresh_EndComputePass a st; (r.st, r.dispatched, r.logged)
  | .beginCopyPass a =>
      let r := Refresh_BeginCopyPass a st; (r.st, r.dispatched, r.logged)
  | .uploadToTexture a b c cy =>
      let r := Refresh_UploadToTexture a b c cy st; (r.st, r.dispatched, r.logged)
  | .uploadToBuffer a b c cy =>
      let r := Refresh_UploadToBuffer a b c cy st; (r.st, r.dispatched, r.logged)
  | .copyTextureToTexture a b c w h d cy =>
      let r := Refresh_CopyTextureToTexture a b c w h d cy st; (r.st, r.dispatched, r.logged)
  | .copyBufferToBuffer a b c s cy =>
      let r := Refresh_CopyBufferToBuffer a b c s cy st; (r.st, r.dispatched, r.logged)
  | .generateMipmaps a b =>
      let r := Refresh_GenerateMipmaps a b st; (r.st, r.dispatched, r.logged)
  | .downloadFromTexture a b c =>
      let r := Refresh_DownloadFromTexture a b c st; (r.st, r.dispatched, r.logged)
  | .downloadFromBuffer a b c =>
      let r := Refresh_DownloadFromBuffer a b c st; (r.st, r.dispatched, r.logged)
  | .endCopyPass a =>
      let r := Refresh_EndCopyPass a st; (r.st, r.dispatched, r.logged)
  | .blit a b c f cy =>
      let r := Refresh_Blit a b c f cy st; (r.st, r.dispatched, r.logged)
  | .acquireSwapchainTexture a b ret =>
      let r := Refresh_AcquireSwapchainTexture a b ret st; (r.st, r.dispatched, r.logged)
  | .submit a =>
      let r := Refresh_Submit a st; (r.st, r.dispatched, r.logged)
  | .submitAndAcquireFence a ret =>
      let r := Refresh_SubmitAndAcquireFence a ret st; (r.st, r.dispatched, r.logged)

/-- State part of `runOp`. -/
def applyOp (op : FrontendOp) (st : CBHeader) : CBHeader :=
  (runOp op st).1

/-- Backend dispatches of one call. -/
def dispatchesOf (op : FrontendOp) (st : CBHeader) : List String :=
  (runOp op st).2.1

/-- Log output of one call. -/
def logsOf (op : FrontendOp) (st : CBHeader) : List String :=
  (runOp op st).2.2

/-- Run a sequence of public frontend calls on a command buffer state. -/
def runOps : List FrontendOp → CBHeader → CBHeader
  | [], st => st
  | op :: rest, st => runOps rest (applyOp op st)

/-- At most one of the three pass `inProgress` flags is set, stated pairwise. -/
def atMostOnePass (st : CBHeader) : Prop :=
  (st.renderInProgress && st.computeInProgress) = false ∧
  (st.renderInProgress && st.copyInProgress) = false ∧
  (st.computeInProgress && st.copyInProgress) = false

instance (st : CBHeader) : Decidable (atMostOnePass st) := by
  unfold atMostOnePass; infer_instance

/-- NULL-ness of the first (handle) argument of each frontend call: the
command-buffer or pass pointer the call validates first. -/
def handleNull : FrontendOp → Bool
  | .insertDebugLabel a _ => a
  | .pushDebugGroup a _ => a
  | .popDebugGroup a => a
  | .pushVertexUniformData a _ _ _ => a
  | .pushFragmentUniformData a _ _ _ => a
  | .pushComputeUniformData a _ _ _ => a
  | .beginRenderPass a _ _ _ => a
  | .bindGraphicsPipeline a _ => a
  | .setViewport a _ => a
  | .setScissor a _ => a
  | .bindVertexBuffers a _ _ _ => a
  | .bindIndexBuffer a _ _ => a
  | .bindVertexSamplers a _ _ _ => a
  | .bindVertexStorageTextures a _ _ _ => a
  | .bindVertexStorageBuffers a _ _ _ => a
  | .bindFragmentSamplers a _ _ _ => a
  | .bindFragmentStorageTextures a _ _ _ => a
  | .bindFragmentStorageBuffers a _ _ _ => a
  | .drawIndexedPrimitives a _ _ _ _ => a
  | .drawPrimitives a _ _ => a
  | .drawPrimitivesIndirect a _ _ _ _ => a
  | .drawIndexedPrimitivesIndirect a _ _ _ _ => a
  | .endRenderPass a => a
  | .beginComputePass a _ _ _ _ => a
  | .bindComputePipeline a _ => a
  | .bindComputeStorageTextures a _ _ _ => a
  | .bindComputeStorageBuffers a _ _ _ => a
  | .dispatchCompute a _ _ _ => a
  | .endComputePass a => a
  | .beginCopyPass a => a
  | .uploadToTexture a _ _ _ => a
  | .uploadToBuffer a _ _ _ => a
  | .copyTextureToTexture a _ _ _ _ _ _ => a
  | .copyBufferToBuffer a _ _ _ _ => a
  | .generateMipmaps a _ => a
  | .downloadFromTexture a _ _ => a
  | .downloadFromBuffer a _ _ => a
  | .endCopyPass a => a
  | .blit a _ _ _ _ => a
  | .acquireSwapchainTexture a _ _ => a
  | .submit a => a
  | .submitAndAcquireFence a _ => a

/-! ### Backend selection (`Refresh_SelectBackend`, `Refresh_CreateDevice`) -/

/-- One registered driver record (`Refresh_Driver`,
`src/src/Refresh_driver.h`): its `Name`, `backendflag`, and the result of its
`PrepareDriver()` probe. -/
structure Refresh_Driver where
  Name : String
  backendflag : Nat
  PrepareDriver : Bool
deriving Repr, DecidableEq

/-- `REFRESH_BACKEND_INVALID` (`src/include/Refresh.h` line 385). -/
def REFRESH_BACKEND_INVALID : Nat := 0

/-- ASCII lower-cased code of one character, as `SDL_tolower` computes it. -/
def lowerCode (c : Char) : Nat :=
  if 65 ≤ c.toNat ∧ c.toNat ≤ 90 then c.toNat + 32 else c.toNat

/-- `SDL_strcasecmp(a, b) == 0`: ASCII case-insensitive string equality. -/
def strcaseEq (a b : String) : Bool :=
  a.data.map lowerCode == b.data.map lowerCode

/-- `Refresh_SelectBackend` (`src/src/Refresh.c` 128-164).  The `backends`
registration array and the `REFRESH_HINT_BACKEND` environment value are
parameters.  With a hint set, the loop returns the first driver whose name
matches case-insensitively AND whose prepare succeeds, else hard-fails with
`REFRESH_BACKEND_INVALID` — the preferred and fallback loops are never
reached.  Without a hint, the preferred loop runs only when the mask is
non-empty, and falls through to the fallback loop. -/
def Refresh_SelectBackend (backends : List Refresh_Driver)
    (hintBackend : Option String) (preferredBackends : Nat) : Nat :=
  match hintBackend with
  | some gpudriver =>
    match backends.find? (fun d => strcaseEq gpudriver d.Name && d.PrepareDriver) with
    | some d => d.backendflag
    | none => REFRESH_BACKEND_INVALID
  | none =>
    match (if preferredBackends ≠ REFRESH_BACKEND_INVALID then
             backends.find? (fun d =>
               (decide ((preferredBackends &&& d.backendflag) ≠ 0)) && d.PrepareDriver)
           else none) with
    | some d => d.backendflag
    | none =>
      match backends.find? (fun d => d.PrepareDriver) with
      | some d => d.backendflag
      | none => REFRESH_BACKEND_INVALID

/-- `Refresh_CreateDevice` (`src/src/Refresh.c` 166-188): select the backend,
then walk the registration array and return the first device a driver with
the selected flag creates.  Each driver's `CreateDevice` outcome is
abstracted by `createSucceeds`; the returned device is represented by its
backend flag. -/
def Refresh_CreateDevice (backends : List Refresh_Driver)
    (createSucceeds : Refresh_Driver → Bool)
    (hintBackend : Option String) (preferredBackends : Nat) : Option Nat :=
  let selectedBackend := Refresh_SelectBackend backends hintBackend preferredBackends
  if selectedBackend ≠ REFRESH_BACKEND_INVALID then
    match backends.find? (fun d => d.backendflag == selectedBackend && createSucceeds d) with
    | some d => some d.backendflag
    | none => none
  else none

/-- Modelled from the spec: the backend-selection algorithm as §4.1 words it,
for comparison with the translated `Refresh_SelectBackend`.  Rule 1: a hint
selects the first registered driver matching its name whose prepare
succeeds, and a hint naming no available backend is a hard failure.  Rule 2:
with a non-empty preferred mask, the first driver in registration order whose
flag is in the mask and whose prepare succeeds.  Rule 3: the first driver
whose prepare succeeds.  Rule 4: invalid.  Rules are written with
`filter`/`head?` so the equivalence with the `find?` loops is not
definitional. -/
def specSelectBackend (backends : List Refresh_Driver)
    (hintBackend : Option String) (preferredBackends : Nat) : Nat :=
  match hintBackend with
  | some g =>
    match (backends.filter (fun d => strcaseEq g d.Name && d.PrepareDriver)).head? with
    | some d => d.backendflag
    | none => REFRESH_BACKEND_INVALID
  | none =>
    match (if preferredBackends = 0 then none
           else (backends.filter (fun d =>
             (decide ((preferredBackends &&& d.backendflag) ≠ 0)) && d.PrepareDriver)).head?) with
    | some d => d.backendflag
    | none =>
      match (backends.filter (fun d => d.PrepareDriver)).head? with
      | some d => d.backendflag
      | none => REFRESH_BACKEND_INVALID

/-! ### Texture formats, texel block size, depth-format substitution -/

/-- `Refresh_TextureFormat` (`src/include/Refresh.h` 98-146), in declaration
order.  The entry-point revision of `Refresh.c` spells three of these
differently (`B5G6R5` for `R5G6B5`, `B5G5R5A1` for `A1R5G5B5`, `R10G10B10A2`
for `A2R10G10B10`); the header names are used here throughout. -/
inductive Refresh_TextureFormat where
  | R8G8B8A8 | B8G8R8A8 | R5G6B5 | A1R5G5B5 | B4G4R4A4 | A2R10G10B10 | A2B10G10R10
  | R16G16 | R16G16B16A16 | R8 | A8
  | BC1 | BC2 | BC3 | BC7
  | R8G8_SNORM | R8G8B8A8_SNORM
  | R16_SFLOAT | R16G16_SFLOAT | R16G16B16A16_SFLOAT
  | R32_SFLOAT | R32G32_SFLOAT | R32G32B32A32_SFLOAT
  | R8_UINT | R8G8_UINT | R8G8B8A8_UINT | R16_UINT | R16G16_UINT | R16G16B16A16_UINT
  | R8G8B8A8_SRGB | B8G8R8A8_SRGB
  | BC3_SRGB | BC7_SRGB
  | D16_UNORM | D24_UNORM | D32_SFLOAT | D24_UNORM_S8_UINT | D32_SFLOAT_S8_UINT
deriving Repr, DecidableEq

/-- `Refresh_TextureFormatTexelBlockSize` (`src/src/Refresh.c` 204-253).
Every format not listed in a case — including `R16G16`, `A2B10G10R10` and
ALL five depth formats — falls into the `default` branch, which logs
`Unrecognized TextureFormat!` and returns 0. -/
def Refresh_TextureFormatTexelBlockSize : Refresh_TextureFormat → Nat
  | .BC1 => 8
  | .BC2 | .BC3 | .BC7 | .BC3_SRGB | .BC7_SRGB => 16
  | .R8 | .A8 | .R8_UINT => 1
  | .R5G6B5 | .B4G4R4A4 | .A1R5G5B5
  | .R16_SFLOAT | .R8G8_SNORM | .R8G8_UINT | .R16_UINT => 2
  | .R8G8B8A8 | .B8G8R8A8 | .R8G8B8A8_SRGB | .B8G8R8A8_SRGB
  | .R32_SFLOAT | .R16G16_SFLOAT | .R8G8B8A8_SNORM | .A2R10G10B10
  | .R8G8B8A8_UINT | .R16G16_UINT => 4
  | .R16G16B16A16_SFLOAT | .R16G16B16A16 | .R32G32_SFLOAT | .R16G16B16A16_UINT => 8
  | .R32G32B32A32_SFLOAT => 16
  | _ => 0

/-- `IsDepthFormat` (`src/src/Refresh_driver.h` 97-111). -/
def IsDepthFormat : Refresh_TextureFormat → Bool
  | .D16_UNORM | .D24_UNORM | .D32_SFLOAT
  | .D24_UNORM_S8_UINT | .D32_SFLOAT_S8_UINT => true
  | _ => false

/-- The depth-format substitution switch, written out verbatim in BOTH
`Refresh_CreateTexture` (`Refresh.c` 425-442) and
`Refresh_CreateGraphicsPipeline` (`Refresh.c` 334-351). -/
def depthFormatFallback : Refresh_TextureFormat → Refresh_TextureFormat
  | .D24_UNORM => .D32_SFLOAT
  | .D32_SFLOAT => .D24_UNORM
  | .D24_UNORM_S8_UINT => .D32_SFLOAT_S8_UINT
  | .D32_SFLOAT_S8_UINT => .D24_UNORM_S8_UINT
  | _ => .D16_UNORM

/-- Modelled from the spec: the fixed substitution table `D24 ↔ D32`,
`D24_S8 ↔ D32_S8`, `D16_UNORM` as the ultimate fallback for any other
depth format, for comparison with `depthFormatFallback`. -/
def specDepthSubstitution : Refresh_TextureFormat → Refresh_TextureFormat
  | .D24_UNORM => .D32_SFLOAT
  | .D32_SFLOAT => .D24_UNORM
  | .D24_UNORM_S8_UINT => .D32_SFLOAT_S8_UINT
  | .D32_SFLOAT_S8_UINT => .D24_UNORM_S8_UINT
  | _ => .D16_UNORM

/-- `REFRESH_TEXTURETYPE_2D` (`src/include/Refresh.h` 162). -/
def REFRESH_TEXTURETYPE_2D : Nat := 0

/-- `REFRESH_TEXTUREUSAGE_DEPTH_STENCIL_TARGET_BIT` (`Refresh.h` 152). -/
def REFRESH_TEXTUREUSAGE_DEPTH_STENCIL_TARGET_BIT : Nat := 4

/-- The fields of `Refresh_TextureCreateInfo` the frontend inspects. -/
structure Refresh_TextureCreateInfo where
  format : Refresh_TextureFormat
  usageFlags : Nat
deriving Repr, DecidableEq

/-- `Refresh_CreateTexture` (`src/src/Refresh.c` 400-456).  `isSupported`
abstracts `device->IsTextureFormatSupported` (format, type, usage).  The
result is the create info actually dispatched to `device->CreateTexture`
(none when a null check failed) paired with whether the substitution
warning was logged; the info is mutated in place in C, so a substituted
format is what the backend and all downstream operations see. -/
def Refresh_CreateTexture (deviceNull textureCreateInfoNull : Bool)
    (isSupported : Refresh_TextureFormat → Nat → Nat → Bool)
    (info : Refresh_TextureCreateInfo) :
    Option Refresh_TextureCreateInfo × Bool :=
  if deviceNull then (none, false)
  else if textureCreateInfoNull then (none, false)
  else if IsDepthFormat info.format &&
      !(isSupported info.format REFRESH_TEXTURETYPE_2D info.usageFlags) then
    (some { info with format := depthFormatFallback info.format }, true)
  else (some info, false)

/-- The fields of `Refresh_GraphicsPipelineAttachmentInfo` the frontend
inspects. -/
structure Refresh_GraphicsPipelineAttachmentInfo where
  hasDepthStencilAttachment : Bool
  depthStencilFormat : Refresh_TextureFormat
deriving Repr, DecidableEq

/-- `Refresh_CreateGraphicsPipeline` (`src/src/Refresh.c` 312-364).  Same
shape as `Refresh_CreateTexture`: result is the attachment info dispatched
to `device->CreateGraphicsPipeline` plus the warning flag. -/
def Refresh_CreateGraphicsPipeline (deviceNull pipelineCreateInfoNull : Bool)
    (isSupported : Refresh_TextureFormat → Nat → Nat → Bool)
    (attachmentInfo : Refresh_GraphicsPipelineAttachmentInfo) :
    Option Refresh_GraphicsPipelineAttachmentInfo × Bool :=
  if deviceNull then (none, false)
  else if pipelineCreateInfoNull then (none, false)
  else if attachmentInfo.hasDepthStencilAttachment &&
      !(isSupported attachmentInfo.depthStencilFormat REFRESH_TEXTURETYPE_2D
          REFRESH_TEXTUREUSAGE_DEPTH_STENCIL_TARGET_BIT) then
    (some { attachmentInfo with
        depthStencilFormat := depthFormatFallback attachmentInfo.depthStencilFormat },
     true)
  else (some attachmentInfo, false)

/-! ### Buffer creation (`Refresh_CreateBuffer`, `VULKAN_CreateGpuBuffer`) -/

/-- `Refresh_CreateBuffer` (`src/src/Refresh.c` 458-469).
`CHECK_DEVICE_MAGIC` is the ONLY validation performed; the usage flags and
byte size are handed to `device->CreateBuffer` unchanged.  The result is
the argument pair dispatched to the backend, or none when the device was
null. -/
def Refresh_CreateBuffer (deviceNull : Bool) (usageFlags sizeInBytes : Nat) :
    Option (Nat × Nat) :=
  if deviceNull then none else some (usageFlags, sizeInBytes)

/-- A created Vulkan buffer, reduced to the field the size-zero claim needs. -/
structure VulkanBufferModel where
  size : Nat
deriving Repr, DecidableEq

/-- `VULKAN_CreateGpuBuffer` (`src/src/Refresh_Driver_Vulkan.c` 7204-7251):
translates the usage bits into Vulkan usage flags (omitted here — it never
touches the size) and delegates to `VULKAN_INTERNAL_CreateBufferContainer`
with the UNCHANGED `sizeInBytes`; neither it nor
`VULKAN_INTERNAL_CreateBufferHandle` nor `VULKAN_INTERNAL_CreateBuffer`
(4009-4088) checks the size — the size goes straight into
`vkCreateBuffer`.  The outcome of the external `vkCreateBuffer` and
memory-bind calls is abstracted as `externalsSucceed`. -/
def VULKAN_CreateGpuBuffer (externalsSucceed : Bool)
    (usageFlags sizeInBytes : Nat) : Option VulkanBufferModel :=
  if externalsSucceed then some ⟨sizeInBytes⟩ else none

/-! ### Resource cycling (Vulkan driver) -/

/-- `Refresh_WriteOptions` of the Vulkan driver revision
(`REFRESH_WRITEOPTIONS_SAFE` / `_CYCLE` / `_UNSAFE`); the third constructor
is spelled `unchecked` here for lexical reasons.  The spec phrase
`cycle = true` corresponds to `REFRESH_WRITEOPTIONS_CYCLE`. -/
inductive Refresh_WriteOptions where
  | safe | cycle | unchecked
deriving Repr, DecidableEq

/-- The fields of a `VulkanBuffer` backing the cycling logic reads. -/
structure VulkanBuffer where
  referenceCount : Nat
  defragInProgress : Bool
  size : Nat
deriving Repr, DecidableEq

/-- A `VulkanBufferContainer`: the ring of backings (`bufferHandles`, handle
indirection flattened) and the index of `activeBufferHandle` in it. -/
structure VulkanBufferContainer where
  bufferHandles : List VulkanBuffer
  activeIndex : Nat
deriving Repr, DecidableEq

/-- The buffer `activeBufferHandle->vulkanBuffer` points at. -/
def activeBuffer (c : VulkanBufferContainer) : VulkanBuffer :=
  c.bufferHandles.getD c.activeIndex ⟨0, false, 0⟩

/-- `VULKAN_INTERNAL_CycleActiveBuffer`
(`src/src/Refresh_Driver_Vulkan.c` 5895-5952): reuse the first backing whose
reference count is zero; otherwise allocate a fresh backing of the same size
and append it.  The Bool reports whether a new backing was allocated. -/
def VULKAN_INTERNAL_CycleActiveBuffer (c : VulkanBufferContainer) :
    VulkanBufferContainer × Bool :=
  match c.bufferHandles.findIdx? (fun b => b.referenceCount == 0) with
  | some i => ({ c with activeIndex := i }, false)
  | none =>
    ({ bufferHandles := c.bufferHandles ++ [⟨0, false, (activeBuffer c).size⟩],
       activeIndex := c.bufferHandles.length }, true)

/-- Outcome of `VULKAN_INTERNAL_PrepareBufferForWrite`. -/
structure PrepareBufferResult where
  container : VulkanBufferContainer
  returnedIndex : Nat
  rotated : Bool
  allocated : Bool
  barrier : Bool
deriving Repr, DecidableEq

/-- `VULKAN_INTERNAL_PrepareBufferForWrite`
(`src/src/Refresh_Driver_Vulkan.c` 6023-6056): SAFE or defrag-in-progress →
barrier on the current backing; CYCLE with reference count > 0 → rotate via
`VULKAN_INTERNAL_CycleActiveBuffer`; otherwise (including CYCLE with an
unbound backing) → write the access type and return the current backing. -/
def VULKAN_INTERNAL_PrepareBufferForWrite (writeOption : Refresh_WriteOptions)
    (c : VulkanBufferContainer) : PrepareBufferResult :=
  if writeOption == .safe || (activeBuffer c).defragInProgress then
    ⟨c, c.activeIndex, false, false, true⟩
  else if writeOption == .cycle && (activeBuffer c).referenceCount > 0 then
    let cycled := VULKAN_INTERNAL_CycleActiveBuffer c
    ⟨cycled.1, cycled.1.activeIndex, true, cycled.2, false⟩
  else
    ⟨c, c.activeIndex, false, false, false⟩

/-- The fields of a `VulkanTextureSlice` the cycling logic reads. -/
structure VulkanTextureSlice where
  referenceCount : Nat
  defragInProgress : Bool
deriving Repr, DecidableEq

/-- The fields of a `VulkanTexture` the cycling logic reads: its mip level
count and its slice array. -/
structure VulkanTexture where
  levelCount : Nat
  slices : List VulkanTextureSlice
deriving Repr, DecidableEq

/-- A `VulkanTextureContainer`: `canBeCycled`, the ring of texture backings
and the index of `activeTextureHandle` in it. -/
structure VulkanTextureContainer where
  canBeCycled : Bool
  textureHandles : List VulkanTexture
  activeIndex : Nat
deriving Repr, DecidableEq

/-- The texture `activeTextureHandle->vulkanTexture` points at. -/
def activeTexture (c : VulkanTextureContainer) : VulkanTexture :=
  c.textureHandles.getD c.activeIndex ⟨0, []⟩

/-- `VULKAN_INTERNAL_GetTextureSliceIndex`
(`src/src/Refresh_Driver_Vulkan.c` 4448): `layer * levelCount + level`. -/
def VULKAN_INTERNAL_GetTextureSliceIndex (t : VulkanTexture)
    (layer level : Nat) : Nat :=
  layer * t.levelCount + level

/-- `VULKAN_INTERNAL_FetchTextureSlice`
(`src/src/Refresh_Driver_Vulkan.c` 4456). -/
def VULKAN_INTERNAL_FetchTextureSlice (t : VulkanTexture)
    (layer level : Nat) : VulkanTextureSlice :=
  t.slices.getD (VULKAN_INTERNAL_GetTextureSliceIndex t layer level) ⟨0, false⟩

/-- Total slice reference count of one texture backing, as summed by the
inner loop of `VULKAN_INTERNAL_CycleActiveTexture`. -/
def sliceRefCountTotal (t : VulkanTexture) : Nat :=
  (t.slices.map (fun s => s.referenceCount)).sum

/-- `VULKAN_INTERNAL_CycleActiveTexture`
(`src/src/Refresh_Driver_Vulkan.c` 5953-6021): reuse the first texture
backing whose slices are all unreferenced; otherwise allocate a fresh
backing with the same shape and append it. -/
def VULKAN_INTERNAL_CycleActiveTexture (c : VulkanTextureContainer) :
    VulkanTextureContainer × Bool :=
  match c.textureHandles.findIdx? (fun t => sliceRefCountTotal t == 0) with
  | some i => ({ c with activeIndex := i }, false)
  | none =>
    ({ c with
        textureHandles := c.textureHandles ++
          [{ levelCount := (activeTexture c).levelCount,
             slices := (activeTexture c).slices.map (fun _ => ⟨0, false⟩) }],
        activeIndex := c.textureHandles.length }, true)

/-- Outcome of `VULKAN_INTERNAL_PrepareTextureSliceForWrite`.  The
unconditional image-layout barrier the C code issues at the end is not
represented. -/
structure PrepareTextureSliceResult where
  container : VulkanTextureContainer
  slice : VulkanTextureSlice
  rotated : Bool
  allocated : Bool
deriving Repr, DecidableEq

/-- `VULKAN_INTERNAL_PrepareTextureSliceForWrite`
(`src/src/Refresh_Driver_Vulkan.c` 6058-6100): rotate only when the write
option is CYCLE, the container can be cycled, the addressed slice is not
being defragged, and that slice is referenced (> 0); otherwise return the
current slice of the current backing unchanged. -/
def VULKAN_INTERNAL_PrepareTextureSliceForWrite
    (writeOption : Refresh_WriteOptions) (c : VulkanTextureContainer)
    (layer level : Nat) : PrepareTextureSliceResult :=
  let textureSlice := VULKAN_INTERNAL_FetchTextureSlice (activeTexture c) layer level
  if writeOption == .cycle && c.canBeCycled && !textureSlice.defragInProgress &&
      textureSlice.referenceCount > 0 then
    let cycled := VULKAN_INTERNAL_CycleActiveTexture c
    ⟨cycled.1, VULKAN_INTERNAL_FetchTextureSlice (activeTexture cycled.1) layer level,
     true, cycled.2⟩
  else
    ⟨c, textureSlice, false, false⟩

/-- `canBeCycled` of every swapchain texture container
(`src/src/Refresh_Driver_Vulkan.c` 5022: `canBeCycled = 0`). -/
def swapchainTextureCanBeCycled : Bool := false

/-- `canBeCycled` of every container made by `VULKAN_CreateTexture`
(`src/src/Refresh_Driver_Vulkan.c` 7189: `canBeCycled = 1`). -/
def createdTextureCanBeCycled : Bool := true

/-- Every single frontend call preserves `atMostOnePass`. -/
theorem applyOp_atMostOnePass (op : FrontendOp) (st : CBHeader)
    (h : atMostOnePass st) : atMostOnePass (applyOp op st) := by
  cases op <;>
    simp only [applyOp, runOp, Refresh_InsertDebugLabel, Refresh_PushDebugGroup,
      Refresh_PopDebugGroup, Refresh_PushVertexUniformData,
      Refresh_PushFragmentUniformData, Refresh_PushComputeUniformData,
      Refresh_BeginRenderPass, Refresh_BindGraphicsPipeline, Refresh_SetViewport,
      Refresh_SetScissor, Refresh_BindVertexBuffers, Refresh_BindIndexBuffer,
      Refresh_BindVertexSamplers, Refresh_BindVertexStorageTextures,
      Refresh_BindVertexStorageBuffers, Refresh_BindFragmentSamplers,
      Refresh_BindFragmentStorageTextures, Refresh_BindFragmentStorageBuffers,
      Refresh_DrawIndexedPrimitives, Refresh_DrawPrimitives,
      Refresh_DrawPrimitivesIndirect, Refresh_DrawIndexedPrimitivesIndirect,
      Refresh_EndRenderPass, Refresh_BeginComputePass, Refresh_BindComputePipeline,
      Refresh_BindComputeStorageTextures, Refresh_BindComputeStorageBuffers,
      Refresh_DispatchCompute, Refresh_EndComputePass, Refresh_BeginCopyPass,
      Refresh_UploadToTexture, Refresh_UploadToBuffer, Refresh_CopyTextureToTexture,
      Refresh_CopyBufferToBuffer, Refresh_GenerateMipmaps,
      Refresh_DownloadFromTexture, Refresh_DownloadFromBuffer, Refresh_EndCopyPass,
      Refresh_Blit, Refresh_AcquireSwapchainTexture, Refresh_Submit,
      Refresh_SubmitAndAcquireFence] <;>
    (repeat' split) <;>
    simp_all [atMostOnePass, anyPassInProgress]

/-- Every sequence of frontend calls preserves `atMostOnePass`. -/
theorem runOps_atMostOnePass (ops : List FrontendOp) (st : CBHeader)
    (h : atMostOnePass st) : atMostOnePass (runOps ops st) := by
  induction ops generalizing st with
  | nil => exact h
  | cons op rest ih => exact ih _ (applyOp_atMostOnePass op st h)

/-- `List.find?` selects the head of the filtered list. -/
theorem find?_eq_filter_head? (p : α → Bool) (l : List α) :
    l.find? p = (l.filter p).head? := by
  induction l with
  | nil => rfl
  | cons a t ih =>
    simp only [List.find?, List.filter]
    cases h : p a with
    | false => exact ih
    | true => rfl

/-- C1: for every command buffer and every sequence of public frontend calls,
at most one of the three pass in-progress flags is set at every public-call
boundary; each begin-pass call refuses (returns null, state unchanged) when
any of the three is already set; and each end-pass call clears only its own
in-progress flag, leaving the other two untouched. -/
theorem c1_at_most_one_pass_in_progress :
    (∀ ops : List FrontendOp, atMostOnePass (runOps ops acquiredHeader))
  ∧ (∀ st a b n c, anyPassInProgress st = true →
      (Refresh_BeginRenderPass a b n c st).ret = none ∧
      (Refresh_BeginRenderPass a b n c st).st = st)
  ∧ (∀ st a b n c m, anyPassInProgress st = true →
      (Refresh_BeginComputePass a b n c m st).ret = none ∧
      (Refresh_BeginComputePass a b n c m st).st = st)
  ∧ (∀ st a, anyPassInProgress st = true →
      (Refresh_BeginCopyPass a st).ret = none ∧
      (Refresh_BeginCopyPass a st).st = st)
  ∧ (∀ st, (Refresh_EndRenderPass false st).st.renderInProgress = false ∧
      (Refresh_EndRenderPass false st).st.computeInProgress = st.computeInProgress ∧
      (Refresh_EndRenderPass false st).st.copyInProgress = st.copyInProgress)
  ∧ (∀ st, (Refresh_EndComputePass false st).st.computeInProgress = false ∧
      (Refresh_EndComputePass false st).st.renderInProgress = st.renderInProgress ∧
      (Refresh_EndComputePass false st).st.copyInProgress = st.copyInProgress)
  ∧ (∀ st, (Refresh_EndCopyPass false st).st.copyInProgress = false ∧
      (Refresh_EndCopyPass false st).st.renderInProgress = st.renderInProgress ∧
      (Refresh_EndCopyPass false st).st.computeInProgress = st.computeInProgress) := by
  refine ⟨fun ops => runOps_atMostOnePass ops acquiredHeader (by decide),
    ?_, ?_, ?_, ?_, ?_, ?_⟩
  · intro st a b n c h
    unfold Refresh_BeginRenderPass
    repeat' split
    all_goals simp_all
  · intro st a b n c m h
    unfold Refresh_BeginComputePass
    repeat' split
    all_goals simp_all
  · intro st a h
    unfold Refresh_BeginCopyPass
    repeat' split
    all_goals simp_all
  · intro st
    unfold Refresh_EndRenderPass
    repeat' split
    all_goals simp_all
  · intro st
    unfold Refresh_EndComputePass
    repeat' split
    all_goals simp_all
  · intro st
    unfold Refresh_EndCopyPass
    repeat' split
    all_goals simp_all

/-- Concrete instantiation of `c1_at_most_one_pass_in_progress`: a trace that
opens a render pass and then attempts a compute pass, and the refusal of
`Refresh_BeginComputePass` on a header with a render pass in progress. -/
theorem c1_witness :
    atMostOnePass (runOps [FrontendOp.beginRenderPass false false 1 false,
        FrontendOp.beginComputePass false false 0 false 0] acquiredHeader)
  ∧ (Refresh_BeginComputePass false false 0 false 0
      ⟨true, false, false, false, false, false⟩).ret = none :=
  ⟨c1_at_most_one_pass_in_progress.1 _,
   (c1_at_most_one_pass_in_progress.2.2.1 ⟨true, false, false, false, false, false⟩
      false false 0 false 0 (by decide)).1⟩

/-- C2: evaluation showing the code violates the claimed invariant.  Trace:
begin render pass, end render pass, then `Refresh_BindGraphicsPipeline`
through the (now stale) render-pass handle.  The bind call dispatches to the
backend and sets `graphicsPipelineBound` although no render pass is in
progress, and it logs no not-in-render-pass error. -/
theorem c2_bind_graphics_pipeline_unchecked :
    (runOps [FrontendOp.beginRenderPass false false 1 false,
        FrontendOp.endRenderPass false,
        FrontendOp.bindGraphicsPipeline false false]
        acquiredHeader).graphicsPipelineBound = true
  ∧ (runOps [FrontendOp.beginRenderPass false false 1 false,
        FrontendOp.endRenderPass false,
        FrontendOp.bindGraphicsPipeline false false]
        acquiredHeader).renderInProgress = false
  ∧ dispatchesOf (FrontendOp.bindGraphicsPipeline false false)
      (runOps [FrontendOp.beginRenderPass false false 1 false,
          FrontendOp.endRenderPass false] acquiredHeader) = ["BindGraphicsPipeline"]
  ∧ logsOf (FrontendOp.bindGraphicsPipeline false false)
      (runOps [FrontendOp.beginRenderPass false false 1 false,
          FrontendOp.endRenderPass false] acquiredHeader) = [] := by
  decide

/-- C3: evaluation showing the code violates the claim.  After a successful
`Refresh_Submit` the `submitted` flag is set, yet `Refresh_BindGraphicsPipeline`
called through a stale render-pass handle of the submitted command buffer
still dispatches to the backend and mutates the command-buffer state. -/
theorem c3_recording_after_submit_has_effects :
    (runOps [FrontendOp.beginRenderPass false false 1 false,
        FrontendOp.endRenderPass false, FrontendOp.submit false]
        acquiredHeader).submitted = true
  ∧ (runOps [FrontendOp.beginRenderPass false false 1 false,
        FrontendOp.endRenderPass false, FrontendOp.submit false]
        acquiredHeader).graphicsPipelineBound = false
  ∧ (applyOp (FrontendOp.bindGraphicsPipeline false false)
      (runOps [FrontendOp.beginRenderPass false false 1 false,
          FrontendOp.endRenderPass false, FrontendOp.submit false]
          acquiredHeader)).graphicsPipelineBound = true
  ∧ dispatchesOf (FrontendOp.bindGraphicsPipeline false false)
      (runOps [FrontendOp.beginRenderPass false false 1 false,
          FrontendOp.endRenderPass false, FrontendOp.submit false]
          acquiredHeader) = ["BindGraphicsPipeline"] := by
  decide

/-- C4: evaluation showing the code violates the claim.  Trace: begin copy
pass, end copy pass; with the copy pass no longer in progress,
`Refresh_UploadToBuffer` and `Refresh_DownloadFromBuffer` called through the
stale copy-pass handle dispatch to the backend and log nothing — the
`CHECK_COPYPASS` guard is absent from them (and from the copy/download/
mipmap siblings); only `Refresh_UploadToTexture` refuses. -/
theorem c4_copy_ops_do_not_check_copy_pass :
    (runOps [FrontendOp.beginCopyPass false, FrontendOp.endCopyPass false]
        acquiredHeader).copyInProgress = false
  ∧ dispatchesOf (FrontendOp.uploadToBuffer false false false false)
      (runOps [FrontendOp.beginCopyPass false, FrontendOp.endCopyPass false]
          acquiredHeader) = ["UploadToBuffer"]
  ∧ logsOf (FrontendOp.uploadToBuffer false false false false)
      (runOps [FrontendOp.beginCopyPass false, FrontendOp.endCopyPass false]
          acquiredHeader) = []
  ∧ dispatchesOf (FrontendOp.downloadFromBuffer false false false)
      (runOps [FrontendOp.beginCopyPass false, FrontendOp.endCopyPass false]
          acquiredHeader) = ["DownloadFromBuffer"]
  ∧ dispatchesOf (FrontendOp.uploadToTexture false false false false)
      (runOps [FrontendOp.beginCopyPass false, FrontendOp.endCopyPass false]
          acquiredHeader) = []
  ∧ logsOf (FrontendOp.uploadToTexture false false false false)
      (runOps [FrontendOp.beginCopyPass false, FrontendOp.endCopyPass false]
          acquiredHeader) = ["Copy pass not in progress!"] := by
  decide

/-- C10: every public recording call whose command-buffer or pass handle
argument is NULL logs exactly one parameter-error message and returns
without dispatching anything to the backend and without changing the
command-buffer state; the handle-returning calls additionally return null. -/
theorem c10_null_handle_rejected :
    (∀ (op : FrontendOp) (st : CBHeader), handleNull op = true →
      applyOp op st = st ∧ dispatchesOf op st = [] ∧
      ∃ s, logsOf op st = ["SDL_InvalidParamError " ++ s])
  ∧ (∀ st b n c, (Refresh_BeginRenderPass true b n c st).ret = none)
  ∧ (∀ st b n c m, (Refresh_BeginComputePass true b n c m st).ret = none)
  ∧ (∀ st, (Refresh_BeginCopyPass true st).ret = none)
  ∧ (∀ st b r, (Refresh_AcquireSwapchainTexture true b r st).ret = none)
  ∧ (∀ st r, (Refresh_SubmitAndAcquireFence true r st).ret = none) := by
  refine ⟨?_, fun st b n c => rfl, fun st b n c m => rfl, fun st => rfl,
    fun st b r => rfl, fun st r => rfl⟩
  intro op st h
  cases op <;> simp only [handleNull] at h <;> subst h <;>
    first
      | exact ⟨rfl, rfl, "commandBuffer", rfl⟩
      | exact ⟨rfl, rfl, "renderPass", rfl⟩
      | exact ⟨rfl, rfl, "computePass", rfl⟩
      | exact ⟨rfl, rfl, "copyPass", rfl⟩

/-- Concrete instantiation of `c10_null_handle_rejected`:
`Refresh_DrawPrimitives` with a NULL render-pass handle on a freshly
acquired command buffer. -/
theorem c10_witness :
    applyOp (FrontendOp.drawPrimitives true 0 1) acquiredHeader = acquiredHeader
  ∧ dispatchesOf (FrontendOp.drawPrimitives true 0 1) acquiredHeader = []
  ∧ ∃ s, logsOf (FrontendOp.drawPrimitives true 0 1) acquiredHeader =
      ["SDL_InvalidParamError " ++ s] :=
  c10_null_handle_rejected.1 (FrontendOp.drawPrimitives true 0 1) acquiredHeader (by decide)

/-- C5: a CYCLE write on an unbound buffer or texture slice proceeds to the
current backing with no rotation and no allocation (the buffer case keeps
the container and active index verbatim, with the barrier exactly for a
defrag in progress); rotation happens only when the resource is bound
(reference count positive) and only under CYCLE; and a container with the
swapchain value of `canBeCycled` never rotates or allocates. -/
theorem c5_cycle_unbound_no_rotation :
    (∀ c : VulkanBufferContainer, (activeBuffer c).referenceCount = 0 →
      VULKAN_INTERNAL_PrepareBufferForWrite .cycle c =
        ⟨c, c.activeIndex, false, false, (activeBuffer c).defragInProgress⟩)
  ∧ (∀ wo c, (VULKAN_INTERNAL_PrepareBufferForWrite wo c).rotated = true →
      (activeBuffer c).referenceCount > 0 ∧ wo = .cycle)
  ∧ (∀ c layer level,
      (VULKAN_INTERNAL_FetchTextureSlice (activeTexture c) layer level).referenceCount = 0 →
      VULKAN_INTERNAL_PrepareTextureSliceForWrite .cycle c layer level =
        ⟨c, VULKAN_INTERNAL_FetchTextureSlice (activeTexture c) layer level, false, false⟩)
  ∧ (∀ wo c layer level,
      (VULKAN_INTERNAL_PrepareTextureSliceForWrite wo c layer level).rotated = true →
      (VULKAN_INTERNAL_FetchTextureSlice (activeTexture c) layer level).referenceCount > 0
        ∧ wo = .cycle ∧ c.canBeCycled = true)
  ∧ (∀ wo c layer level, c.canBeCycled = swapchainTextureCanBeCycled →
      (VULKAN_INTERNAL_PrepareTextureSliceForWrite wo c layer level).rotated = false ∧
      (VULKAN_INTERNAL_PrepareTextureSliceForWrite wo c layer level).allocated = false) := by
  refine ⟨?_, ?_, ?_, ?_, ?_⟩
  · intro c h
    unfold VULKAN_INTERNAL_PrepareBufferForWrite
    repeat' split
    all_goals simp_all
  · intro wo c h
    unfold VULKAN_INTERNAL_PrepareBufferForWrite at h
    repeat' split at h
    all_goals simp_all
  · intro c layer level h
    unfold VULKAN_INTERNAL_PrepareTextureSliceForWrite
    simp_all
  · intro wo c layer level h
    simp only [VULKAN_INTERNAL_PrepareTextureSliceForWrite] at h
    split at h
    · rename_i hcond
      simp_all
    · simp_all
  · intro wo c layer level h
    unfold VULKAN_INTERNAL_PrepareTextureSliceForWrite
    simp_all [swapchainTextureCanBeCycled]

/-- Concrete instantiation of `c5_cycle_unbound_no_rotation`: a CYCLE write
on a never-bound one-backing buffer container keeps the backing, and a
swapchain-style texture container never rotates. -/
theorem c5_witness :
    VULKAN_INTERNAL_PrepareBufferForWrite .cycle ⟨[⟨0, false, 16⟩], 0⟩ =
      ⟨⟨[⟨0, false, 16⟩], 0⟩,
       (⟨[⟨0, false, 16⟩], 0⟩ : VulkanBufferContainer).activeIndex, false, false,
       (activeBuffer ⟨[⟨0, false, 16⟩], 0⟩).defragInProgress⟩
  ∧ (VULKAN_INTERNAL_PrepareTextureSliceForWrite .cycle
       ⟨false, [⟨1, [⟨5, false⟩]⟩], 0⟩ 0 0).rotated = false :=
  ⟨c5_cycle_unbound_no_rotation.1 ⟨[⟨0, false, 16⟩], 0⟩ (by decide),
   (c5_cycle_unbound_no_rotation.2.2.2.2 .cycle
      ⟨false, [⟨1, [⟨5, false⟩]⟩], 0⟩ 0 0 (by decide)).1⟩

/-- C6: `Refresh_SelectBackend` computes exactly the algorithm the spec
states (hint first and hard, then the first prepared driver in a non-empty
preferred mask, then the first prepared driver, else invalid); with a hint
set, the preferred mask is ignored entirely; and an invalid selection makes
`Refresh_CreateDevice` return null. -/
theorem c6_backend_selection :
    (∀ backends hintBackend preferredBackends,
      Refresh_SelectBackend backends hintBackend preferredBackends =
        specSelectBackend backends hintBackend preferredBackends)
  ∧ (∀ backends g preferredBackends preferredBackends',
      Refresh_SelectBackend backends (some g) preferredBackends =
        Refresh_SelectBackend backends (some g) preferredBackends')
  ∧ (∀ backends createSucceeds hintBackend preferredBackends,
      Refresh_SelectBackend backends hintBackend preferredBackends =
        REFRESH_BACKEND_INVALID →
      Refresh_CreateDevice backends createSucceeds hintBackend preferredBackends =
        none) := by
  refine ⟨?_, ?_, ?_⟩
  · intro backends hintBackend preferredBackends
    cases hintBackend with
    | some g =>
      unfold Refresh_SelectBackend specSelectBackend
      simp only [find?_eq_filter_head?]
    | none =>
      unfold Refresh_SelectBackend specSelectBackend
      simp only [find?_eq_filter_head?, REFRESH_BACKEND_INVALID, ne_eq, ite_not]
  · intro backends g p p2
    rfl
  · intro backends createSucceeds hintBackend preferredBackends h
    simp [Refresh_CreateDevice, h]

/-- Concrete instantiation of `c6_backend_selection`: a hint naming no
registered backend is a hard failure even though the only registered driver
prepares successfully. -/
theorem c6_witness :
    Refresh_CreateDevice [⟨"Vulkan", 1, true⟩] (fun d => true)
      (some "D3D11") 0 = none :=
  c6_backend_selection.2.2 [⟨"Vulkan", 1, true⟩] (fun d => true)
    (some "D3D11") 0 (by decide)

/-- C7: the substitution switch equals the spec table (`D24 ↔ D32`,
`D24_S8 ↔ D32_S8`, `D16` for any other depth format), and both
`Refresh_CreateTexture` and `Refresh_CreateGraphicsPipeline` apply it
whenever the requested depth-stencil format is reported unsupported:
the warning is logged, the create info is mutated in place, and creation
proceeds (dispatches `some` mutated info to the backend) instead of
failing. -/
theorem c7_depth_format_fallback :
    (∀ f, depthFormatFallback f = specDepthSubstitution f)
  ∧ (∀ isSupported info, IsDepthFormat info.format = true →
      isSupported info.format REFRESH_TEXTURETYPE_2D info.usageFlags = false →
      Refresh_CreateTexture false false isSupported info =
        (some { info with format := depthFormatFallback info.format }, true))
  ∧ (∀ isSupported ai, ai.hasDepthStencilAttachment = true →
      isSupported ai.depthStencilFormat REFRESH_TEXTURETYPE_2D
        REFRESH_TEXTUREUSAGE_DEPTH_STENCIL_TARGET_BIT = false →
      Refresh_CreateGraphicsPipeline false false isSupported ai =
        (some { ai with
            depthStencilFormat := depthFormatFallback ai.depthStencilFormat },
         true)) := by
  refine ⟨?_, ?_, ?_⟩
  · intro f; cases f <;> rfl
  · intro isSupported info h1 h2
    simp [Refresh_CreateTexture, h1, h2]
  · intro isSupported ai h1 h2
    simp [Refresh_CreateGraphicsPipeline, h1, h2]

/-- Concrete instantiation of `c7_depth_format_fallback`: on a backend
reporting every format unsupported, a D24_UNORM depth texture request is
realized as D32_SFLOAT with the warning logged. -/
theorem c7_witness :
    Refresh_CreateTexture false false (fun f t u => false)
      ⟨Refresh_TextureFormat.D24_UNORM, 4⟩ =
      (some ⟨Refresh_TextureFormat.D32_SFLOAT, 4⟩, true) :=
  c7_depth_format_fallback.2.1 (fun f t u => false)
    ⟨Refresh_TextureFormat.D24_UNORM, 4⟩ (by decide) (by decide)

/-- C8: evaluation showing the code contradicts the table.  Every depth
format — including D16_UNORM, which the table assigns block size 2 — falls
into the default branch of `Refresh_TextureFormatTexelBlockSize`, which
logs `Unrecognized TextureFormat!` and returns 0; the 32-bit `R16G16`
format does likewise. -/
theorem c8_depth_formats_block_size_zero :
    Refresh_TextureFormatTexelBlockSize .D16_UNORM = 0
  ∧ Refresh_TextureFormatTexelBlockSize .D24_UNORM = 0
  ∧ Refresh_TextureFormatTexelBlockSize .D32_SFLOAT = 0
  ∧ Refresh_TextureFormatTexelBlockSize .D24_UNORM_S8_UINT = 0
  ∧ Refresh_TextureFormatTexelBlockSize .D32_SFLOAT_S8_UINT = 0
  ∧ Refresh_TextureFormatTexelBlockSize .R16G16 = 0 := by
  decide

/-- C9: evaluation showing the claim is not implemented.  Neither
`Refresh_CreateBuffer` (which only checks the device) nor the Vulkan
buffer-creation path performs any size validation: a size of 0 is
dispatched to the backend and, whenever the external Vulkan calls succeed,
a buffer of size 0 is returned instead of null — for every usage mask. -/
theorem c9_create_buffer_size_zero_not_rejected :
    (∀ usageFlags, Refresh_CreateBuffer false usageFlags 0 = some (usageFlags, 0))
  ∧ (∀ usageFlags, VULKAN_CreateGpuBuffer true usageFlags 0 = some ⟨0⟩) := by
  exact ⟨fun u => rfl, fun u => rfl⟩

end Refresh
